import Mathlib

/-!
A shallow embedding of the core of the sqlalchemy_signing library
(file sqlalchemy_signing/__init__.py) together with proofs about the key
lifecycle operations: write_key, check_key, verify_key (the rate-limited
wrapper), expire_key, rotate_key, query_keys and get_all.

Modelling conventions:

* Time (datetime values) is modelled as Int seconds.  A
  datetime.timedelta(hours=h) is h * 3600 seconds, and the never-expires
  sentinel datetime(9999, 12, 31, 23, 59, 59) is the constant
  neverExpires (its POSIX timestamp, 253402300799).
* The injectable clock datetime_override becomes an explicit now : Int
  argument on every operation.
* The database is a list of Signing rows;
  session.query(Signing).filter_by(signature=sig).first() is List.find?,
  and committing an update of a row maps over the list.
* Python exceptions become the SigningError inductive.  Each constructor
  is one Python exception class and carries the message string, so both
  the class and the message of every raise site are preserved exactly.
  The constructor noResultsFound stands for the bare
  Exception("No results found for given parameters.") raised by
  query_keys, and storageError stands for an SQLAlchemyError escaping
  the record store.
* secrets.token_urlsafe is modelled by an explicit stream of candidate
  keys (keys : List String); the retry-until-unique loop of write_key is
  List.find? for the first candidate not already present in the database.
* The scope filter of query_keys calls contains on the generic JSON
  column; that comparator renders scope LIKE (percent || s || percent)
  over the text the JSON serializer stored, not a set-membership test.
  The model therefore serializes the scope list as json.dumps does and
  runs the SQL LIKE matcher over that text.  And get_all reads
  self.get_model().query, an attribute the plain declarative Signing
  class does not have (no query_property is installed), so get_all is
  modelled as always failing with AttributeError.
* rotate_key and the write_key call inside it share one thread-local
  scoped_session, so the marks active := false, rotated := true placed on
  the old row stay pending (uncommitted) until the session.commit() that
  write_key itself performs, which persists them together with the newly
  inserted row in a single commit.  A failure while creating the
  successor, before that commit (modelled by the injected value
  RotateFail.failCreate), unwinds the pending marks: the with-statement
  closes the session on the exception path and rotate_key then calls
  session.rollback().  The model therefore applies the old-row marks and
  the insert atomically on success, and returns the database unchanged on
  every error path.
-/

namespace SqlalchemySigning

/-- ASCII lower-casing of one character, as Python str.lower acts on the
ASCII range. -/
def lowerChar (c : Char) : Char :=
  if 65 ≤ c.toNat ∧ c.toNat ≤ 90 then Char.ofNat (c.toNat + 32) else c

/-- Python s.lower() on ASCII strings: lower every character. -/
def pyLower (s : String) : String := ⟨s.data.map lowerChar⟩

/-- The character c is an ASCII upper-case letter. -/
def isUpperAscii (c : Char) : Prop := 65 ≤ c.toNat ∧ c.toNat ≤ 90

instance (c : Char) : Decidable (isUpperAscii c) := by
  unfold isUpperAscii
  infer_instance

/-- POSIX seconds of datetime.datetime(9999, 12, 31, 23, 59, 59), the
never-expires sentinel that write_key stores when expiration is 0. -/
def neverExpires : Int := 253402300799

/-- One row of the signing table (the Signing model class). -/
structure Signing where
  signature : String
  email : String
  scope : List String
  active : Bool
  timestamp : Int
  expiration : Int
  expiration_int : Int
  request_count : Int
  last_request_time : Int
  previous_key : Option String
  rotated : Bool
deriving Repr, DecidableEq

/-- The Python exception classes raised by the library, with the message
of the raise site.  The constructor attributeError carries no message: it
stands for the builtin AttributeError that escapes get_all when it reads
the nonexistent query attribute of the Signing class (the interpreter
renders its message with the class and attribute names quoted). -/
inductive SigningError where
  | rateLimitExceeded (msg : String)
  | keyDoesNotExist (msg : String)
  | keyExpired (msg : String)
  | scopeMismatch (msg : String)
  | alreadyRotated (msg : String)
  | noResultsFound (msg : String)
  | storageError (msg : String)
  | attributeError
deriving Repr, DecidableEq

deriving instance DecidableEq for Except

/-- The Python exception class of an error, forgetting the message. -/
def SigningError.exceptionClass : SigningError → String
  | .rateLimitExceeded _ => "RateLimitExceeded"
  | .keyDoesNotExist _ => "KeyDoesNotExist"
  | .keyExpired _ => "KeyExpired"
  | .scopeMismatch _ => "ScopeMismatch"
  | .alreadyRotated _ => "AlreadyRotated"
  | .noResultsFound _ => "Exception"
  | .storageError _ => "SQLAlchemyError"
  | .attributeError => "AttributeError"

/-- The constructor arguments of the Signatures class that the modelled
operations read. -/
structure Config where
  safe_mode : Bool
  rate_limiting : Bool
  rate_limiting_max_requests : Int
  rate_limiting_period : Int
deriving Repr, DecidableEq

/-- session.query(Signing).filter_by(signature=sig).first() -/
def dbFirst (db : List Signing) (sig : String) : Option Signing :=
  db.find? (fun r => r.signature == sig)

/-- Committing an update of the row keyed by sig. -/
def dbUpdate (db : List Signing) (sig : String) (r : Signing) : List Signing :=
  db.map (fun x => if x.signature == sig then r else x)

/-- A Python scope argument of type str, list or None. -/
inductive ScopeInput where
  | null
  | str (s : String)
  | list (l : List String)
deriving Repr, DecidableEq

/-- The normalisation of the scope argument into modified_scope performed
by write_key: a string becomes a one-element list, every element is
lower-cased, and None becomes the empty list. -/
def modifiedScope : ScopeInput → List String
  | .null => []
  | .str s => [pyLower s]
  | .list l => l.map pyLower

/-- A Python scope argument of type str or list, as passed to check_key
and verify_key (passing None there would raise a TypeError inside
set(scope) and is outside the model). -/
inductive ReqScope where
  | str (s : String)
  | list (l : List String)
deriving Repr, DecidableEq

/-- The conversion scope = [scope] if isinstance(scope, str) performed by
check_key. -/
def ReqScope.toList : ReqScope → List String
  | .str s => [s]
  | .list l => l

/-- The signing_fields dictionary prepared by write_key for the new row,
given the unique key that the generation loop settled on. -/
def writtenRow (scope : ScopeInput) (expiration : Int) (active : Bool)
    (email : Option String) (previous_key : Option String) (now : Int)
    (key : String) : Signing :=
  { signature := key
    scope := modifiedScope scope
    email := match email with
      | Option.some e => if e = "" then "" else pyLower e
      | Option.none => ""
    active := active
    rotated := false
    expiration := if expiration ≠ 0 then now + expiration * 3600 else neverExpires
    expiration_int := expiration
    timestamp := now
    request_count := 0
    last_request_time := now
    previous_key := match previous_key with
      | Option.some p => if p = "" then Option.none else Option.some p
      | Option.none => Option.none }

/-- Signatures.write_key.  The keys argument is the stream of candidates
produced by generate_key; the while loop keeps drawing until it finds one
whose signature is not yet in the database.  Returns the new database and
the written key, or none when the candidate stream is exhausted (the real
loop would keep drawing forever). -/
def write_key (db : List Signing) (keys : List String) (scope : ScopeInput)
    (expiration : Int) (active : Bool) (email : Option String)
    (previous_key : Option String) (now : Int) :
    Option (List Signing × String) :=
  match keys.find? (fun k => (dbFirst db k).isNone) with
  | Option.none => Option.none
  | Option.some key =>
    Option.some (db ++ [writtenRow scope expiration active email previous_key now key], key)

/-- Signatures.expire_key: disable the row, or raise KeyDoesNotExist. -/
def expire_key (db : List Signing) (key : String) :
    List Signing × Except SigningError Bool :=
  match dbFirst db key with
  | Option.none =>
    (db, Except.error (SigningError.keyDoesNotExist "This key does not exist."))
  | Option.some signing_key =>
    (dbUpdate db key { signing_key with active := false }, Except.ok true)

/-- Signatures.check_key.  Returns the database after the call (the
expired branch persists a deactivation through expire_key) together with
the result: Except.ok true on success, otherwise the raised exception. -/
def check_key (db : List Signing) (signature : String) (scope : ReqScope)
    (now : Int) : List Signing × Except SigningError Bool :=
  match dbFirst db signature with
  | Option.none =>
    (db, Except.error (SigningError.keyDoesNotExist "This key does not exist."))
  | Option.some signing_key =>
    if !signing_key.active then
      (db, Except.error (SigningError.keyExpired "This key is no longer active."))
    else if signing_key.expiration < now then
      ((expire_key db signature).1,
       Except.error (SigningError.keyExpired "This key is expired."))
    else
      if !signing_key.scope.isEmpty
          && !(scope.toList.any (fun s => signing_key.scope.contains s)) then
        (db, Except.error (SigningError.scopeMismatch "This key does not match the required scope."))
      else
        (db, Except.ok true)

/-- Signatures.verify_key, that is check_key wrapped by the
request_limiter descriptor.  When rate limiting is disabled the wrapper
is a passthrough.  Otherwise it looks the row up; when the row exists it
resets the counter if the period has elapsed since last_request_time,
raises RateLimitExceeded when the counter has reached the maximum (the
session is closed without commit on that path, so the database is
unchanged and check_key is never invoked), and otherwise commits the
incremented counter and the new last_request_time before delegating to
check_key. -/
def verify_key (cfg : Config) (db : List Signing) (signature : String)
    (scope : ReqScope) (now : Int) : List Signing × Except SigningError Bool :=
  if !cfg.rate_limiting then check_key db signature scope now
  else
    match dbFirst db signature with
    | Option.none => check_key db signature scope now
    | Option.some signing_key =>
      let k1 := if now - signing_key.last_request_time ≥ cfg.rate_limiting_period
        then { signing_key with request_count := 0, last_request_time := now }
        else signing_key
      if k1.request_count ≥ cfg.rate_limiting_max_requests then
        (db, Except.error (SigningError.rateLimitExceeded "Too many requests. Please try again later."))
      else
        let k2 := { k1 with request_count := k1.request_count + 1, last_request_time := now }
        check_key (dbUpdate db signature k2) signature scope now

/-- The scope written to the successor by rotate_key: the overwrite scope
lower-cased when given, else the scope list of the old row. -/
def rotateScope (overwrite_scope : ScopeInput) (signing_key : Signing) : List String :=
  match overwrite_scope with
  | ScopeInput.str s => [pyLower s]
  | ScopeInput.list l => l.map pyLower
  | ScopeInput.null => signing_key.scope

/-- The expiration offset written to the successor by rotate_key: the
explicit override when one is passed, else the expiration_int inherited
from the old row. -/
def inheritedExpiration (expiration : Option Int) (signing_key : Signing) : Int :=
  match expiration with
  | Option.some e => e
  | Option.none => signing_key.expiration_int

/-- The injected failure point for rotate_key.  failCreate is a storage
failure while creating the successor row, after the old row has been
marked active := false, rotated := true in the pending session but before
the single commit (inside write_key) that would persist both. -/
inductive RotateFail where
  | noFail
  | failCreate
deriving Repr, DecidableEq

/-- Signatures.rotate_key.  The old row and the successor are committed
by the one session.commit() inside write_key (the scoped session is
shared), so on success the marked old row and the new row appear
atomically; on every failure path the database is returned unchanged
(rollback). -/
def rotate_key (cfg : Config) (db : List Signing) (keys : List String)
    (key : String) (expiration : Option Int) (overwrite_scope : ScopeInput)
    (now : Int) (fail : RotateFail) :
    List Signing × Except SigningError String :=
  match dbFirst db key with
  | Option.none =>
    (db, Except.error (SigningError.keyDoesNotExist "This key does not exist."))
  | Option.some signing_key =>
    if cfg.safe_mode && signing_key.rotated then
      (db, Except.error (SigningError.alreadyRotated "Key has already been rotated"))
    else if cfg.safe_mode && !signing_key.active then
      (db, Except.error (SigningError.keyExpired "You cannot rotate a disabled key"))
    else
      let expiration2 := inheritedExpiration expiration signing_key
      let modified_scope : List String := rotateScope overwrite_scope signing_key
      if fail = RotateFail.failCreate then
        (db, Except.error (SigningError.storageError "error while creating the successor"))
      else
        let dbPending := dbUpdate db key { signing_key with active := false, rotated := true }
        match write_key dbPending keys (ScopeInput.list modified_scope) expiration2 true
            (Option.some signing_key.email) (Option.some signing_key.signature) now with
        | Option.none =>
          (db, Except.error (SigningError.storageError "key generation exhausted"))
        | Option.some (db2, new_key) => (db2, Except.ok new_key)

/-- The projected dictionary shape returned by query_keys, get_all and
get_key (request_count and last_request_time are not projected). -/
structure KeyProjection where
  signature : String
  email : String
  scope : List String
  active : Bool
  timestamp : Int
  expiration : Int
  previous_key : Option String
  rotated : Bool
deriving Repr, DecidableEq

/-- The dictionary built for each row by query_keys, get_all and get_key. -/
def projectKey (r : Signing) : KeyProjection :=
  { signature := r.signature, email := r.email, scope := r.scope,
    active := r.active, timestamp := r.timestamp, expiration := r.expiration,
    previous_key := r.previous_key, rotated := r.rotated }

/-- The scope filter values used by query_keys after the string-to-list
conversion (None contributes no filter). -/
def scopeFilterList : ScopeInput → List String
  | ScopeInput.str s => [s]
  | ScopeInput.list l => l
  | ScopeInput.null => []

/-- The filter stage of query_keys guarded by active is not None. -/
def filterActive (q : List Signing) : Option Bool → List Signing
  | Option.some a => q.filter (fun r => r.active == a)
  | Option.none => q

/-- The lowercase hexadecimal digit for n (n below 16). -/
def hexDigit (n : Nat) : Char :=
  if n < 10 then Char.ofNat (48 + n) else Char.ofNat (87 + n)

/-- The four-digit lowercase hexadecimal rendering of n (n below 65536),
as json.dumps writes a unicode escape. -/
def hex4 (n : Nat) : String :=
  String.mk [hexDigit (n / 4096 % 16), hexDigit (n / 256 % 16),
    hexDigit (n / 16 % 16), hexDigit (n % 16)]

/-- The escaping json.dumps (with its default ensure_ascii=True) applies
to one character of a string: quote and backslash are backslash-escaped,
the five short control escapes are used, every other character outside
printable ASCII becomes a unicode escape (a surrogate pair beyond the
basic plane), and printable ASCII passes through. -/
def jsonEscapeChar (c : Char) : String :=
  if c = Char.ofNat 34 then "\\\""
  else if c = Char.ofNat 92 then "\\\\"
  else if c = Char.ofNat 10 then "\\n"
  else if c = Char.ofNat 9 then "\\t"
  else if c = Char.ofNat 13 then "\\r"
  else if c = Char.ofNat 8 then "\\b"
  else if c = Char.ofNat 12 then "\\f"
  else if c.toNat < 32 ∨ c.toNat > 126 then
    if c.toNat ≤ 65535 then "\\u" ++ hex4 c.toNat
    else "\\u" ++ hex4 (55296 + (c.toNat - 65536) / 1024)
      ++ "\\u" ++ hex4 (56320 + (c.toNat - 65536) % 1024)
  else String.singleton c

/-- json.dumps of one string, with the default ensure_ascii=True. -/
def jsonDumpString (s : String) : String :=
  "\"" ++ String.join (s.data.map jsonEscapeChar) ++ "\""

/-- json.dumps of the scope list (elements separated by a comma and a
space), the text that the default json_serializer of the SQLite dialect
stores in the JSON scope column. -/
def jsonDumpScope (l : List String) : String :=
  "[" ++ String.intercalate ", " (l.map jsonDumpString) ++ "]"

/-- SQL LIKE matching of a pattern against a text: the percent sign
matches any character sequence, the underscore matches exactly one
character, every other pattern character matches itself.  The first
argument is fuel for structural recursion; every recursive call strictly
decreases the combined length of pattern and text, so any fuel above
that combined length gives the true LIKE semantics (the lemma
likeMatchFuel_congr below makes the fuel-independence precise). -/
def likeMatchFuel : Nat → List Char → List Char → Bool
  | 0, _, _ => false
  | _ + 1, [], t => t.isEmpty
  | fuel + 1, p :: ps, t =>
    if p = Char.ofNat 37 then
      likeMatchFuel fuel ps t
        || (match t with
            | [] => false
            | _ :: ts => likeMatchFuel fuel (p :: ps) ts)
    else
      match t with
      | [] => false
      | c :: ts =>
        if p = Char.ofNat 95 then likeMatchFuel fuel ps ts
        else p == c && likeMatchFuel fuel ps ts

/-- SQL LIKE with adequate fuel. -/
def likeMatch (p t : List Char) : Bool :=
  likeMatchFuel (p.length + t.length + 1) p t

/-- The predicate compiled from Signing.scope.comparator.contains(s): on
the generic JSON column the comparator falls back to the generic
column-operator contains, which renders the SQL
scope LIKE (percent || s || percent) — a substring-style test over the
serialized JSON text of the scope list, not a set-membership test.  The
comparand s is not escaped, so a percent sign or underscore inside s
keeps its wildcard meaning.  (LIKE case folding is collation-dependent —
SQLite folds ASCII case by default — and is not modelled; the inputs
judged here are lower-case ASCII, where the collations agree.) -/
def scopeLikeContains (s : String) (scope : List String) : Bool :=
  likeMatch (Char.ofNat 37 :: s.data ++ [Char.ofNat 37]) (jsonDumpScope scope).data

/-- The filter stage of query_keys that applies one contains filter per
requested scope string (conjunctively); each contains filter is the
LIKE test over the serialized JSON scope text. -/
def filterScopes (q : List Signing) (scope : ScopeInput) : List Signing :=
  (scopeFilterList scope).foldl
    (fun acc s => acc.filter (fun r => scopeLikeContains s r.scope)) q

/-- The filter stage of query_keys guarded by the truthiness of email. -/
def filterEmail (q : List Signing) : Option String → List Signing
  | Option.some e => if e = "" then q else q.filter (fun r => r.email == e)
  | Option.none => q

/-- The filter stage of query_keys guarded by the truthiness of
previous_key. -/
def filterPreviousKey (q : List Signing) : Option String → List Signing
  | Option.some p =>
    if p = "" then q else q.filter (fun r => r.previous_key == Option.some p)
  | Option.none => q

/-- The row set produced by the filter chain of query_keys before the
empty-result check. -/
def queryFilter (db : List Signing) (active : Option Bool) (scope : ScopeInput)
    (email : Option String) (previous_key : Option String) : List Signing :=
  filterPreviousKey (filterEmail (filterScopes (filterActive db active) scope) email)
    previous_key

/-- Signatures.query_keys: a conjunctive filter that raises the bare
Exception("No results found for given parameters.") when no row
matches. -/
def query_keys (db : List Signing) (active : Option Bool) (scope : ScopeInput)
    (email : Option String) (previous_key : Option String) :
    Except SigningError (List KeyProjection) :=
  let q := queryFilter db active scope email previous_key
  if q.isEmpty then
    Except.error (SigningError.noResultsFound "No results found for given parameters.")
  else
    Except.ok (q.map projectKey)

/-- Signatures.get_all.  The source evaluates self.get_model().query,
but the Signing class is declared on a plain declarative_base() and no
query_property is ever installed on it, so the attribute lookup raises
AttributeError before any row is read: the call fails on every store,
and the store contents never matter. -/
def get_all (_db : List Signing) : Except SigningError (List KeyProjection) :=
  Except.error SigningError.attributeError

/-- The record invariant relating the stored expiration offset to the
stored expiration instant: the offset is 0 exactly when the instant is
the never-expires sentinel. -/
def expirationInvariant (r : Signing) : Prop :=
  r.expiration_int = 0 ↔ r.expiration = neverExpires

/-!  Concrete rows and databases used by witnesses and counterexamples. -/

/-- The row produced by issuing one key with scope "Read" (stored
lower-cased), no expiry, at time 0, with the candidate stream supplying
the signature k1. -/
def c1row : Signing :=
  { signature := "k1", email := "", scope := ["read"], active := true,
    timestamp := 0, expiration := neverExpires, expiration_int := 0,
    request_count := 0, last_request_time := 0,
    previous_key := Option.none, rotated := false }

/-- The store holding only that freshly issued key. -/
def c1db : List Signing := [c1row]

/-- A row for an explicitly deactivated key. -/
def c6InactiveRow : Signing :=
  { signature := "k", email := "", scope := ["test"], active := false,
    timestamp := 0, expiration := neverExpires, expiration_int := 0,
    request_count := 0, last_request_time := 0,
    previous_key := Option.none, rotated := false }

/-- A store holding only the deactivated key. -/
def c6InactiveDb : List Signing := [c6InactiveRow]

/-- A row for a still-active key whose expiration instant 10 is already
past at time 100. -/
def c6ExpiredRow : Signing :=
  { signature := "k", email := "", scope := ["test"], active := true,
    timestamp := 0, expiration := 10, expiration_int := 1,
    request_count := 0, last_request_time := 0,
    previous_key := Option.none, rotated := false }

/-- A store holding only the expired key. -/
def c6ExpiredDb : List Signing := [c6ExpiredRow]

/-- A configuration with safe mode on and rate limiting off. -/
def cfgSafe : Config :=
  { safe_mode := true, rate_limiting := false,
    rate_limiting_max_requests := 10, rate_limiting_period := 60 }

/-- A configuration with safe mode off and rate limiting off. -/
def cfgUnsafe : Config :=
  { safe_mode := false, rate_limiting := false,
    rate_limiting_max_requests := 10, rate_limiting_period := 60 }

/-- A store holding one already-rotated key. -/
def c5RotatedDb : List Signing :=
  [{ c1row with active := false, rotated := true }]

/-- A store holding one deactivated but never-rotated key. -/
def c5InactiveDb : List Signing :=
  [{ c1row with active := false }]

/-- A store holding one key that is both deactivated and already
rotated. -/
def c5StaleDb : List Signing :=
  [{ c1row with active := false, rotated := true }]

/-- A configuration with rate limiting enabled: at most 2 requests per
10-second window. -/
def cfgRate : Config :=
  { safe_mode := true, rate_limiting := true,
    rate_limiting_max_requests := 2, rate_limiting_period := 10 }

/-- The row written when issuing a key with scope "Read" and a five-hour
expiry at time 0, the candidate stream supplying the signature k1. -/
def c8row : Signing :=
  writtenRow (ScopeInput.str "Read") 5 true Option.none Option.none 0 "k1"

/-- An active key whose scope set is the single string "test1". -/
def c9row : Signing := { c1row with signature := "k9", scope := ["test1"] }

/-- A store holding only that key. -/
def c9db : List Signing := [c9row]

/-!  Supporting lemmas about the embedding. -/

theorem lowerChar_not_upper (c : Char) : ¬ isUpperAscii (lowerChar c) := by
  unfold lowerChar
  split
  · next h =>
    obtain ⟨h1, h2⟩ := h
    generalize c.toNat = n at h1 h2 ⊢
    interval_cases n <;> decide
  · next h => exact fun hu => h hu

theorem pyLower_no_upper (s : String) (c : Char) (hc : c ∈ (pyLower s).data) :
    ¬ isUpperAscii c := by
  change c ∈ s.data.map lowerChar at hc
  rw [List.mem_map] at hc
  obtain ⟨d, _, rfl⟩ := hc
  exact lowerChar_not_upper d

theorem upper_ne_pyLower (rs u : String) (h : ∃ c ∈ rs.data, isUpperAscii c) :
    rs ≠ pyLower u := by
  rintro rfl
  obtain ⟨c, hc, hup⟩ := h
  exact pyLower_no_upper u c hc hup

theorem dbFirst_append (db1 db2 : List Signing) (s : String) :
    dbFirst (db1 ++ db2) s = (dbFirst db1 s).or (dbFirst db2 s) :=
  List.find?_append

theorem dbFirst_sig (db : List Signing) (s : String) (r : Signing)
    (h : dbFirst db s = Option.some r) : r.signature = s := by
  have hp := List.find?_some h
  simpa using hp

theorem dbFirst_cons_self (x : Signing) (xs : List Signing) (t : String)
    (h : x.signature = t) : dbFirst (x :: xs) t = Option.some x := by
  simp [dbFirst, List.find?_cons, h]

theorem dbFirst_cons_ne (x : Signing) (xs : List Signing) (t : String)
    (h : ¬ x.signature = t) : dbFirst (x :: xs) t = dbFirst xs t := by
  simp [dbFirst, List.find?_cons, h]

theorem dbFirst_dbUpdate (db : List Signing) (s t : String) (v : Signing)
    (hv : v.signature = s) :
    dbFirst (dbUpdate db s v) t =
      if s = t then (dbFirst db s).map (fun _ => v) else dbFirst db t := by
  induction db with
  | nil => by_cases h : s = t <;> simp [dbFirst, dbUpdate, h]
  | cons x xs ih =>
    have hcons : dbUpdate (x :: xs) s v
        = (if x.signature == s then v else x) :: dbUpdate xs s v := rfl
    rw [hcons]
    by_cases hx : x.signature = s
    · rw [if_pos (by simp [hx])]
      by_cases hst : s = t
      · subst hst
        rw [dbFirst_cons_self v (dbUpdate xs s v) s hv,
          dbFirst_cons_self x xs s hx, if_pos rfl]
        rfl
      · rw [dbFirst_cons_ne v (dbUpdate xs s v) t (hv ▸ hst),
          dbFirst_cons_ne x xs t (hx ▸ hst), ih, if_neg hst, if_neg hst]
    · rw [if_neg (by simp [hx])]
      by_cases hst : s = t
      · subst hst
        rw [dbFirst_cons_ne x (dbUpdate xs s v) s hx,
          dbFirst_cons_ne x xs s hx, ih, if_pos rfl]
      · by_cases hxt : x.signature = t
        · rw [dbFirst_cons_self x (dbUpdate xs s v) t hxt,
            dbFirst_cons_self x xs t hxt, if_neg hst]
        · rw [dbFirst_cons_ne x (dbUpdate xs s v) t hxt,
            dbFirst_cons_ne x xs t hxt, ih, if_neg hst, if_neg hst]

theorem dbFirst_dbUpdate_isNone (db : List Signing) (s t : String) (v : Signing)
    (hv : v.signature = s) :
    (dbFirst (dbUpdate db s v) t).isNone = (dbFirst db t).isNone := by
  rw [dbFirst_dbUpdate db s t v hv]
  by_cases hst : s = t
  · subst hst
    cases dbFirst db s <;> simp
  · simp [hst]

theorem keyStream_find_congr (keys : List String) (db : List Signing)
    (s : String) (v : Signing) (hv : v.signature = s) :
    keys.find? (fun k => (dbFirst (dbUpdate db s v) k).isNone)
      = keys.find? (fun k => (dbFirst db k).isNone) := by
  have h : (fun k => (dbFirst (dbUpdate db s v) k).isNone)
      = (fun k => (dbFirst db k).isNone) := by
    funext k
    exact dbFirst_dbUpdate_isNone db s k v hv
  rw [h]

theorem write_key_eq (db : List Signing) (keys : List String)
    (scope : ScopeInput) (expiration : Int) (active : Bool)
    (email : Option String) (pk : Option String) (now : Int)
    (db2 : List Signing) (key : String)
    (hw : write_key db keys scope expiration active email pk now
        = Option.some (db2, key)) :
    keys.find? (fun k => (dbFirst db k).isNone) = Option.some key
    ∧ db2 = db ++ [writtenRow scope expiration active email pk now key] := by
  unfold write_key at hw
  cases hfind : keys.find? (fun k => (dbFirst db k).isNone) with
  | none => rw [hfind] at hw; exact absurd hw (by simp)
  | some k0 =>
    rw [hfind] at hw
    simp only [Option.some.injEq, Prod.mk.injEq] at hw
    obtain ⟨h1, h2⟩ := hw
    refine ⟨?_, ?_⟩
    · rw [h2]
    · rw [← h2]
      exact h1.symm

theorem write_key_fresh (db : List Signing) (keys : List String)
    (scope : ScopeInput) (expiration : Int) (active : Bool)
    (email : Option String) (pk : Option String) (now : Int)
    (db2 : List Signing) (key : String)
    (hw : write_key db keys scope expiration active email pk now
        = Option.some (db2, key)) :
    dbFirst db key = Option.none := by
  obtain ⟨hfind, _⟩ := write_key_eq db keys scope expiration active email pk now db2 key hw
  have hp := List.find?_some hfind
  simpa [Option.isNone_iff_eq_none] using hp

theorem write_key_lookup (db : List Signing) (keys : List String)
    (scope : ScopeInput) (expiration : Int) (active : Bool)
    (email : Option String) (pk : Option String) (now : Int)
    (db2 : List Signing) (key : String)
    (hw : write_key db keys scope expiration active email pk now
        = Option.some (db2, key)) :
    dbFirst db2 key
      = Option.some (writtenRow scope expiration active email pk now key) := by
  obtain ⟨hfind, hdb⟩ := write_key_eq db keys scope expiration active email pk now db2 key hw
  have hfresh := write_key_fresh db keys scope expiration active email pk now db2 key hw
  subst hdb
  rw [dbFirst_append, hfresh, Option.none_or]
  exact dbFirst_cons_self _ _ _ rfl

theorem check_key_ok (db : List Signing) (sig : String) (r : Signing)
    (sc : ReqScope) (now : Int)
    (hfind : dbFirst db sig = Option.some r) (hact : r.active = true)
    (hexp : ¬ r.expiration < now)
    (hsc : r.scope = [] ∨ ∃ s ∈ sc.toList, s ∈ r.scope) :
    check_key db sig sc now = (db, Except.ok true) := by
  unfold check_key
  rw [hfind]
  have hcond : (!r.scope.isEmpty
      && !(sc.toList.any fun s => r.scope.contains s)) = false := by
    rcases hsc with h | ⟨s, hs1, hs2⟩
    · simp [h]
    · have hany : (sc.toList.any fun s => r.scope.contains s) = true := by
        rw [List.any_eq_true]
        exact ⟨s, hs1, by simpa using hs2⟩
      rw [hany]
      simp
  simp only [hact, Bool.not_true, Bool.false_eq_true, if_false, if_neg hexp, hcond]

/-- Claim C1: for every valid scope input (string or list) and every
non-negative expiration offset, write_key followed immediately by
check_key on the returned signature, with a requested scope belonging to
the stored scope set of the issued key, succeeds: it returns True and
raises no error. -/
theorem write_then_check_key_succeeds
    (db : List Signing) (keys : List String) (scope : ScopeInput)
    (expiration : Int) (email : Option String) (now : Int)
    (db2 : List Signing) (key s : String)
    (hw : write_key db keys scope expiration true email Option.none now
        = Option.some (db2, key))
    (hs : s ∈ modifiedScope scope)
    (hexp : 0 ≤ expiration) (hnow : now ≤ neverExpires) :
    check_key db2 key (ReqScope.str s) now = (db2, Except.ok true) := by
  have hlk := write_key_lookup db keys scope expiration true email Option.none now db2 key hw
  apply check_key_ok db2 key _ _ now hlk rfl
  · show ¬ (if expiration ≠ 0 then now + expiration * 3600 else neverExpires) < now
    by_cases h0 : expiration = 0
    · rw [if_neg (by simpa using h0)]
      simp only [neverExpires] at hnow ⊢
      omega
    · rw [if_pos h0]
      omega
  · right
    exact ⟨s, by simp [ReqScope.toList], hs⟩

/-- Witness for the C1 theorem at concrete inputs: issuing the key k1
with scope "Read" and no expiry into an empty store, then immediately
checking it against the stored scope "read", succeeds. -/
theorem write_then_check_key_succeeds_witness :
    write_key [] ["k1"] (ScopeInput.str "Read") 0 true Option.none Option.none 0
      = Option.some (c1db, "k1")
    ∧ "read" ∈ modifiedScope (ScopeInput.str "Read")
    ∧ check_key c1db "k1" (ReqScope.str "read") 0 = (c1db, Except.ok true) :=
  ⟨by decide, by decide,
   write_then_check_key_succeeds [] ["k1"] (ScopeInput.str "Read") 0 Option.none 0
     c1db "k1" "read" (by decide) (by decide) (by decide) (by decide)⟩

/-- Claim C7: check_key on an existing key whose expiration instant is in
the past and whose active flag is still true persists active := false on
the row (through expire_key) and then fails with KeyExpired; a repeated
call leaves the row with active = false and fails again. -/
theorem check_key_expired_persists_deactivation
    (db : List Signing) (sig : String) (k : Signing) (sc sc2 : ReqScope)
    (now now2 : Int)
    (hfind : dbFirst db sig = Option.some k)
    (hact : k.active = true) (hexp : k.expiration < now) :
    check_key db sig sc now
      = (dbUpdate db sig { k with active := false },
         Except.error (SigningError.keyExpired "This key is expired."))
    ∧ dbFirst (dbUpdate db sig { k with active := false }) sig
      = Option.some { k with active := false }
    ∧ check_key (dbUpdate db sig { k with active := false }) sig sc2 now2
      = (dbUpdate db sig { k with active := false },
         Except.error (SigningError.keyExpired "This key is no longer active.")) := by
  have hsig : k.signature = sig := dbFirst_sig db sig k hfind
  have hlook : dbFirst (dbUpdate db sig { k with active := false }) sig
      = Option.some { k with active := false } := by
    rw [dbFirst_dbUpdate db sig sig { k with active := false } hsig, if_pos rfl, hfind]
    rfl
  refine ⟨?_, hlook, ?_⟩
  · unfold check_key
    rw [hfind]
    simp only [hact, Bool.not_true, Bool.false_eq_true, if_false, if_pos hexp]
    unfold expire_key
    rw [hfind]
  · unfold check_key
    rw [hlook]
    simp

/-- Witness for the C7 theorem: at time 100 the concrete key with
expiration instant 10 is deactivated in the store and the check fails
with KeyExpired; a repeated check at time 200 leaves the store unchanged
and fails again. -/
theorem check_key_expired_persists_deactivation_witness :
    check_key c6ExpiredDb "k" (ReqScope.str "test") 100
      = (dbUpdate c6ExpiredDb "k" { c6ExpiredRow with active := false },
         Except.error (SigningError.keyExpired "This key is expired."))
    ∧ dbFirst (dbUpdate c6ExpiredDb "k" { c6ExpiredRow with active := false }) "k"
      = Option.some { c6ExpiredRow with active := false }
    ∧ check_key (dbUpdate c6ExpiredDb "k" { c6ExpiredRow with active := false })
        "k" (ReqScope.str "test") 200
      = (dbUpdate c6ExpiredDb "k" { c6ExpiredRow with active := false },
         Except.error (SigningError.keyExpired "This key is no longer active.")) :=
  check_key_expired_persists_deactivation c6ExpiredDb "k" c6ExpiredRow
    (ReqScope.str "test") (ReqScope.str "test") 100 200
    (by decide) (by decide) (by decide)

/-- Counterexample to claim C6 as stated: on a concrete deactivated key,
check_key raises an error of Python exception class KeyExpired, the very
same exception class raised for time-based expiry.  No distinct
KeyInactive class exists in the code, so the two failures cannot be told
apart by exception class. -/
theorem check_key_inactive_error_class_counterexample :
    (check_key c6InactiveDb "k" (ReqScope.str "test") 100).2
      = Except.error (SigningError.keyExpired "This key is no longer active.")
    ∧ (check_key c6ExpiredDb "k" (ReqScope.str "test") 100).2
      = Except.error (SigningError.keyExpired "This key is expired.")
    ∧ SigningError.exceptionClass (SigningError.keyExpired "This key is no longer active.")
      = SigningError.exceptionClass (SigningError.keyExpired "This key is expired.") :=
  ⟨by decide, by decide, rfl⟩

/-- Claim C6 amended: check_key on a key whose active flag is false fails
by raising the same exception class KeyExpired that is raised for
time-based expiry, with the message "This key is no longer active."
rather than "This key is expired."; the two failure modes are
distinguishable only by message text, not by exception class. -/
theorem check_key_inactive_same_class_distinct_message
    (db : List Signing) (sig : String) (k : Signing) (sc : ReqScope) (now : Int)
    (hfind : dbFirst db sig = Option.some k) (hact : k.active = false) :
    (check_key db sig sc now).2
      = Except.error (SigningError.keyExpired "This key is no longer active.")
    ∧ (SigningError.keyExpired "This key is no longer active.").exceptionClass
      = (SigningError.keyExpired "This key is expired.").exceptionClass
    ∧ SigningError.keyExpired "This key is no longer active."
      ≠ SigningError.keyExpired "This key is expired." := by
  refine ⟨?_, rfl, by decide⟩
  unfold check_key
  rw [hfind]
  simp [hact]

/-- Witness for the amended C6 theorem on the concrete deactivated key. -/
theorem check_key_inactive_same_class_distinct_message_witness :
    (check_key c6InactiveDb "k" (ReqScope.list ["anything"]) 50).2
      = Except.error (SigningError.keyExpired "This key is no longer active.")
    ∧ (SigningError.keyExpired "This key is no longer active.").exceptionClass
      = (SigningError.keyExpired "This key is expired.").exceptionClass
    ∧ SigningError.keyExpired "This key is no longer active."
      ≠ SigningError.keyExpired "This key is expired." :=
  check_key_inactive_same_class_distinct_message c6InactiveDb "k" c6InactiveRow
    (ReqScope.list ["anything"]) 50 (by decide) (by decide)

/-- Claim C10: write_key lower-cases every stored scope string while
check_key does not lower-case the requested scope, so for a key issued
with a non-empty scope an immediate check with a requested scope string
containing an ASCII upper-case letter fails with ScopeMismatch, even when
the requested string equals an issued scope up to case. -/
theorem check_key_uppercase_requested_scope_mismatch
    (db : List Signing) (keys : List String) (scope : ScopeInput)
    (expiration : Int) (email : Option String) (now : Int)
    (db2 : List Signing) (key rs : String)
    (hw : write_key db keys scope expiration true email Option.none now
        = Option.some (db2, key))
    (hne : modifiedScope scope ≠ [])
    (hupper : ∃ c ∈ rs.data, isUpperAscii c)
    (hexp : 0 ≤ expiration) (hnow : now ≤ neverExpires) :
    check_key db2 key (ReqScope.str rs) now
      = (db2, Except.error
          (SigningError.scopeMismatch "This key does not match the required scope.")) := by
  have hlk := write_key_lookup db keys scope expiration true email Option.none now db2 key hw
  have hnotexp : ¬ (writtenRow scope expiration true email Option.none now key).expiration < now := by
    show ¬ (if expiration ≠ 0 then now + expiration * 3600 else neverExpires) < now
    by_cases h0 : expiration = 0
    · rw [if_neg (by simpa using h0)]
      simp only [neverExpires] at hnow ⊢
      omega
    · rw [if_pos h0]
      omega
  have hnotmem : rs ∉ modifiedScope scope := by
    intro hmem
    have hex : ∃ u, rs = pyLower u := by
      cases scope with
      | null => simp [modifiedScope] at hmem
      | str s =>
        simp only [modifiedScope, List.mem_singleton] at hmem
        exact ⟨s, hmem⟩
      | list l =>
        simp only [modifiedScope, List.mem_map] at hmem
        obtain ⟨u, _, hu⟩ := hmem
        exact ⟨u, hu.symm⟩
    obtain ⟨u, rfl⟩ := hex
    obtain ⟨c, hc, hcu⟩ := hupper
    exact pyLower_no_upper u c hc hcu
  have hcont : ((modifiedScope scope).contains rs) = false := by
    simpa using hnotmem
  have hcond : (!(writtenRow scope expiration true email Option.none now key).scope.isEmpty
      && !((ReqScope.str rs).toList.any
        fun s => (writtenRow scope expiration true email Option.none now key).scope.contains s))
      = true := by
    have h1 : (writtenRow scope expiration true email Option.none now key).scope
        = modifiedScope scope := rfl
    rw [h1]
    simp only [ReqScope.toList, List.any_cons, List.any_nil, hcont,
      Bool.or_false, Bool.not_false, Bool.and_true, Bool.not_eq_true']
    simpa using hne
  unfold check_key
  rw [hlk]
  simp only [Bool.not_true, Bool.false_eq_true, if_false, if_neg hnotexp, hcond]
  simp [writtenRow]

/-- Witness for the C10 theorem: a key issued with scope "Read" (stored
as "read") rejects the requested scope "Read" with ScopeMismatch. -/
theorem check_key_uppercase_requested_scope_mismatch_witness :
    write_key [] ["k1"] (ScopeInput.str "Read") 0 true Option.none Option.none 0
      = Option.some (c1db, "k1")
    ∧ check_key c1db "k1" (ReqScope.str "Read") 0
      = (c1db, Except.error
          (SigningError.scopeMismatch "This key does not match the required scope.")) :=
  ⟨by decide,
   check_key_uppercase_requested_scope_mismatch [] ["k1"] (ScopeInput.str "Read") 0
     Option.none 0 c1db "k1" "Read" (by decide) (by decide) (by decide)
     (by decide) (by decide)⟩

theorem likeMatchFuel_congr (f : Nat) : ∀ (g : Nat) (p t : List Char),
    p.length + t.length < f → p.length + t.length < g →
    likeMatchFuel f p t = likeMatchFuel g p t := by
  induction f with
  | zero =>
    intro g p t hf hg
    exact absurd hf (Nat.not_lt_zero _)
  | succ f ih =>
    intro g p t hf hg
    cases g with
    | zero => exact absurd hg (Nat.not_lt_zero _)
    | succ g =>
      cases p with
      | nil => rfl
      | cons p ps =>
        simp only [likeMatchFuel]
        by_cases hp : p = Char.ofNat 37
        · rw [if_pos hp, if_pos hp]
          have h1 : likeMatchFuel f ps t = likeMatchFuel g ps t := by
            apply ih
            · simp only [List.length_cons] at hf
              omega
            · simp only [List.length_cons] at hg
              omega
          cases t with
          | nil => simp only [h1]
          | cons c ts =>
            have h2 : likeMatchFuel f (p :: ps) ts = likeMatchFuel g (p :: ps) ts := by
              apply ih
              · simp only [List.length_cons] at hf ⊢
                omega
              · simp only [List.length_cons] at hg ⊢
                omega
            simp only [h1, h2]
        · rw [if_neg hp, if_neg hp]
          cases t with
          | nil => rfl
          | cons c ts =>
            have h3 : likeMatchFuel f ps ts = likeMatchFuel g ps ts := by
              apply ih
              · simp only [List.length_cons] at hf
                omega
              · simp only [List.length_cons] at hg
                omega
            simp only [h3]

/-- Claim C9, evaluated on the code at its failing inputs.  The scope
filter of query_keys is the LIKE test over the serialized JSON scope
text, so querying for scope "test" returns the row whose scope set is
["test1"] even though that set does not contain "test" — the filter
over-matches, against the claim that only records whose scope set
contains every given scope string are returned.  And get_all fails with
AttributeError on every call — in particular on the empty store — against
the claim (and against its own docstring) that it returns an empty list
without failing. -/
theorem query_keys_overmatch_and_get_all_raises :
    query_keys c9db Option.none (ScopeInput.str "test") Option.none Option.none
      = Except.ok [projectKey c9row]
    ∧ "test" ∉ c9row.scope
    ∧ get_all ([] : List Signing) = Except.error SigningError.attributeError :=
  ⟨by decide, by decide, rfl⟩


/-- Claim C5: with safe mode on, rotate_key fails with AlreadyRotated on
a key whose rotated flag is true, and on an unrotated key whose active
flag is false it fails with the disabled-key error (raised as exception
class KeyExpired with message "You cannot rotate a disabled key"; the
spec calls this failure KeyInactive).  The AlreadyRotated check runs
first, so it wins when both flags are set.  With safe mode off both
checks are skipped and rotation succeeds for any key, in particular for
an inactive or already-rotated one. -/
theorem rotate_key_safe_mode_guards
    (cfgS cfgU : Config) (db1 db2 db3 : List Signing)
    (keys1 keys2 keys3 : List String) (k1 k2 k3 : String)
    (sk1 sk2 sk3 : Signing) (exp : Option Int) (ow : ScopeInput) (now : Int)
    (fail1 fail2 : RotateFail) (n3 : String)
    (hS : cfgS.safe_mode = true) (hU : cfgU.safe_mode = false)
    (h1 : dbFirst db1 k1 = Option.some sk1) (hrot1 : sk1.rotated = true)
    (h2 : dbFirst db2 k2 = Option.some sk2) (hrot2 : sk2.rotated = false)
    (hact2 : sk2.active = false)
    (h3 : dbFirst db3 k3 = Option.some sk3)
    (hfresh : keys3.find? (fun s => (dbFirst db3 s).isNone) = Option.some n3) :
    rotate_key cfgS db1 keys1 k1 exp ow now fail1
      = (db1, Except.error (SigningError.alreadyRotated "Key has already been rotated"))
    ∧ rotate_key cfgS db2 keys2 k2 exp ow now fail2
      = (db2, Except.error (SigningError.keyExpired "You cannot rotate a disabled key"))
    ∧ (rotate_key cfgU db3 keys3 k3 exp ow now RotateFail.noFail).2
      = Except.ok n3 := by
  refine ⟨?_, ?_, ?_⟩
  · simp [rotate_key, h1, hS, hrot1]
  · simp [rotate_key, h2, hS, hrot2, hact2]
  · have hsig3 : sk3.signature = k3 := dbFirst_sig db3 k3 sk3 h3
    have hcongr := keyStream_find_congr keys3 db3 k3
      { sk3 with active := false, rotated := true } hsig3
    simp [rotate_key, h3, hU, write_key, hcongr, hfresh]

/-- Witness for the C5 theorem on concrete one-key stores: an
already-rotated key and a deactivated key are refused in safe mode, and a
key that is both deactivated and rotated is successfully rotated with
safe mode off. -/
theorem rotate_key_safe_mode_guards_witness :
    rotate_key cfgSafe c5RotatedDb [] "k1" Option.none ScopeInput.null 0 RotateFail.noFail
      = (c5RotatedDb, Except.error (SigningError.alreadyRotated "Key has already been rotated"))
    ∧ rotate_key cfgSafe c5InactiveDb [] "k1" Option.none ScopeInput.null 0 RotateFail.failCreate
      = (c5InactiveDb, Except.error (SigningError.keyExpired "You cannot rotate a disabled key"))
    ∧ (rotate_key cfgUnsafe c5StaleDb ["n3"] "k1" Option.none ScopeInput.null 0
        RotateFail.noFail).2 = Except.ok "n3" :=
  rotate_key_safe_mode_guards cfgSafe cfgUnsafe c5RotatedDb c5InactiveDb c5StaleDb
    [] [] ["n3"] "k1" "k1" "k1"
    { c1row with active := false, rotated := true }
    { c1row with active := false }
    { c1row with active := false, rotated := true }
    Option.none ScopeInput.null 0 RotateFail.noFail RotateFail.failCreate "n3"
    (by decide) (by decide) (by decide) (by decide) (by decide) (by decide)
    (by decide) (by decide) (by decide)

theorem rotate_key_error_db_unchanged (cfg : Config) (db : List Signing)
    (keys : List String) (key : String) (exp : Option Int) (ow : ScopeInput)
    (now : Int) (fail : RotateFail) (db2 : List Signing) (e : SigningError)
    (h : rotate_key cfg db keys key exp ow now fail = (db2, Except.error e)) :
    db2 = db := by
  unfold rotate_key at h
  repeat' split at h
  all_goals try simp only [] at h
  all_goals try (repeat' split at h)
  all_goals first
    | (injection h with h1 h2; exact h1.symm)
    | (injection h with h1 h2; exact Except.noConfusion h2)

theorem rotate_key_failCreate_errors (cfg : Config) (db : List Signing)
    (keys : List String) (key : String) (exp : Option Int) (ow : ScopeInput)
    (now : Int) :
    ∃ e, (rotate_key cfg db keys key exp ow now RotateFail.failCreate).2
      = Except.error e := by
  unfold rotate_key
  repeat' split
  all_goals first
    | exact ⟨_, rfl⟩
    | exact absurd rfl (by assumption)

/-- Claim C3: rotate_key is atomic.  Every failing run returns the
database unchanged: the old row keeps all its fields and no successor row
is created.  In particular a storage failure injected after the old row
has been marked inactive and rotated in the pending session, while the
successor is being created but before the single commit inside write_key
that would persist both rows, rolls everything back. -/
theorem rotate_key_atomic_rollback
    (cfg : Config) (db : List Signing) (keys : List String) (key : String)
    (exp : Option Int) (ow : ScopeInput) (now : Int) (fail : RotateFail)
    (hfail : fail = RotateFail.failCreate
      ∨ ∃ e, (rotate_key cfg db keys key exp ow now fail).2 = Except.error e) :
    (rotate_key cfg db keys key exp ow now fail).1 = db
    ∧ ∃ e, (rotate_key cfg db keys key exp ow now fail).2 = Except.error e := by
  have herr : ∃ e, (rotate_key cfg db keys key exp ow now fail).2 = Except.error e := by
    rcases hfail with rfl | he
    · exact rotate_key_failCreate_errors cfg db keys key exp ow now
    · exact he
  obtain ⟨e, he⟩ := herr
  have hpair : rotate_key cfg db keys key exp ow now fail
      = ((rotate_key cfg db keys key exp ow now fail).1, Except.error e) := by
    rw [← he]
  exact ⟨rotate_key_error_db_unchanged cfg db keys key exp ow now fail _ e hpair, e, he⟩

/-- Witness for the C3 theorem: a failure injected during successor
creation while rotating the concrete active key leaves the store exactly
as it was. -/
theorem rotate_key_atomic_rollback_witness :
    (rotate_key cfgSafe c1db ["n"] "k1" Option.none ScopeInput.null 0
      RotateFail.failCreate).1 = c1db
    ∧ ∃ e, (rotate_key cfgSafe c1db ["n"] "k1" Option.none ScopeInput.null 0
      RotateFail.failCreate).2 = Except.error e :=
  rotate_key_atomic_rollback cfgSafe c1db ["n"] "k1" Option.none ScopeInput.null 0
    RotateFail.failCreate (Or.inl rfl)

theorem rotate_key_noFail_eq (cfg : Config) (db : List Signing)
    (keys : List String) (key : String) (exp : Option Int) (ow : ScopeInput)
    (now : Int) (sk : Signing) (n : String)
    (hfind : dbFirst db key = Option.some sk)
    (hg1 : (cfg.safe_mode && sk.rotated) = false)
    (hg2 : (cfg.safe_mode && !sk.active) = false)
    (hkeys : keys.find? (fun k => (dbFirst db k).isNone) = Option.some n) :
    rotate_key cfg db keys key exp ow now RotateFail.noFail
      = (dbUpdate db key { sk with active := false, rotated := true }
          ++ [writtenRow (ScopeInput.list (rotateScope ow sk))
               (inheritedExpiration exp sk) true (Option.some sk.email)
               (Option.some sk.signature) now n],
         Except.ok n) := by
  have hsig : sk.signature = key := dbFirst_sig db key sk hfind
  have hcongr := keyStream_find_congr keys db key
    { sk with active := false, rotated := true } hsig
  simp [rotate_key, hfind, hg1, hg2, write_key, hcongr, hkeys]

/-- Claim C4: rotating an active, unrotated key succeeds and returns a
new signature different from the old one; afterwards checking the old key
with any requested scope fails with the inactive-key error (exception
class KeyExpired), while checking the new key with a scope of the
original key succeeds; the successor row inherits the scope, the email
and the expiration offset of the old key, and links back to it through
previous_key. -/
theorem rotate_key_success_properties
    (cfg : Config) (db : List Signing) (keys : List String) (key : String)
    (sk : Signing) (now : Int) (n s : String)
    (hfind : dbFirst db key = Option.some sk)
    (hact : sk.active = true) (hrot : sk.rotated = false)
    (hkeys : keys.find? (fun k => (dbFirst db k).isNone) = Option.some n)
    (hscope : s ∈ sk.scope) (hlower : sk.scope.map pyLower = sk.scope)
    (hemail : pyLower sk.email = sk.email)
    (hexp : 0 ≤ sk.expiration_int) (hnow : now ≤ neverExpires) :
    ∃ db2,
      rotate_key cfg db keys key Option.none ScopeInput.null now RotateFail.noFail
        = (db2, Except.ok n)
      ∧ n ≠ key
      ∧ (∀ sc : ReqScope, check_key db2 key sc now
          = (db2, Except.error (SigningError.keyExpired "This key is no longer active.")))
      ∧ check_key db2 n (ReqScope.str s) now = (db2, Except.ok true)
      ∧ (∃ r, dbFirst db2 n = Option.some r
          ∧ r.scope = sk.scope ∧ r.email = sk.email
          ∧ r.expiration_int = sk.expiration_int
          ∧ r.previous_key = (if key = "" then Option.none else Option.some key)) := by
  have hsig : sk.signature = key := dbFirst_sig db key sk hfind
  have hfreshn : dbFirst db n = Option.none := by
    have hp := List.find?_some hkeys
    simpa [Option.isNone_iff_eq_none] using hp
  have hne : n ≠ key := by
    intro hc
    rw [hc, hfind] at hfreshn
    cases hfreshn
  set sk2 : Signing := { sk with active := false, rotated := true } with hsk2
  set row : Signing := writtenRow (ScopeInput.list (rotateScope ScopeInput.null sk))
    (inheritedExpiration Option.none sk) true (Option.some sk.email)
    (Option.some sk.signature) now n with hrowdef
  set db2 : List Signing := dbUpdate db key sk2 ++ [row] with hdb2
  have hrowsig : row.signature = n := rfl
  have hrowscope : row.scope = sk.scope := by
    show modifiedScope (ScopeInput.list (rotateScope ScopeInput.null sk)) = sk.scope
    show (rotateScope ScopeInput.null sk).map pyLower = sk.scope
    show sk.scope.map pyLower = sk.scope
    exact hlower
  have hrot_eq := rotate_key_noFail_eq cfg db keys key Option.none ScopeInput.null now sk n
    hfind (by rw [hrot]; simp) (by rw [hact]; simp) hkeys
  have hold : dbFirst db2 key = Option.some sk2 := by
    rw [hdb2, dbFirst_append, dbFirst_dbUpdate db key key sk2 hsig, if_pos rfl, hfind]
    rfl
  have hnew : dbFirst db2 n = Option.some row := by
    rw [hdb2, dbFirst_append, dbFirst_dbUpdate db key n sk2 hsig, if_neg (fun hc => hne hc.symm),
      hfreshn]
    exact dbFirst_cons_self row [] n hrowsig
  refine ⟨db2, hrot_eq, hne, ?_, ?_, row, hnew, hrowscope, ?_, rfl, ?_⟩
  · intro sc
    unfold check_key
    rw [hold]
    simp [hsk2]
  · apply check_key_ok db2 n row (ReqScope.str s) now hnew rfl
    · show ¬ (if sk.expiration_int ≠ 0 then now + sk.expiration_int * 3600 else neverExpires) < now
      by_cases h0 : sk.expiration_int = 0
      · rw [if_neg (by simpa using h0)]
        simp only [neverExpires] at hnow ⊢
        omega
      · rw [if_pos h0]
        omega
    · right
      refine ⟨s, by simp [ReqScope.toList], ?_⟩
      rw [hrowscope]
      exact hscope
  · show (if sk.email = "" then "" else pyLower sk.email) = sk.email
    by_cases he : sk.email = ""
    · rw [if_pos he, he]
    · rw [if_neg he, hemail]
  · show (match Option.some sk.signature with
      | Option.some p => if p = "" then Option.none else Option.some p
      | Option.none => (Option.none : Option String))
      = (if key = "" then Option.none else Option.some key)
    rw [hsig]

/-- Witness for the C4 theorem on the concrete one-key store: rotating
k1 yields n2, the old key then fails every check and the new key passes
the original scope check, inheriting scope, email and expiration
offset. -/
theorem rotate_key_success_properties_witness :
    ∃ db2,
      rotate_key cfgSafe c1db ["n2"] "k1" Option.none ScopeInput.null 0 RotateFail.noFail
        = (db2, Except.ok "n2")
      ∧ "n2" ≠ "k1"
      ∧ (∀ sc : ReqScope, check_key db2 "k1" sc 0
          = (db2, Except.error (SigningError.keyExpired "This key is no longer active.")))
      ∧ check_key db2 "n2" (ReqScope.str "read") 0 = (db2, Except.ok true)
      ∧ (∃ r, dbFirst db2 "n2" = Option.some r
          ∧ r.scope = c1row.scope ∧ r.email = c1row.email
          ∧ r.expiration_int = c1row.expiration_int
          ∧ r.previous_key = (if "k1" = "" then Option.none else Option.some "k1")) :=
  rotate_key_success_properties cfgSafe c1db ["n2"] "k1" c1row 0 "n2" "read"
    (by decide) (by decide) (by decide) (by decide) (by decide) (by decide)
    (by decide) (by decide) (by decide)

theorem rotate_key_successor_lookup (cfg : Config) (db : List Signing)
    (keys : List String) (key : String) (exp : Option Int) (ow : ScopeInput)
    (now : Int) (sk : Signing) (n : String)
    (hfind : dbFirst db key = Option.some sk)
    (hg1 : (cfg.safe_mode && sk.rotated) = false)
    (hg2 : (cfg.safe_mode && !sk.active) = false)
    (hkeys : keys.find? (fun k => (dbFirst db k).isNone) = Option.some n) :
    ∃ db3, rotate_key cfg db keys key exp ow now RotateFail.noFail
        = (db3, Except.ok n)
      ∧ dbFirst db3 n = Option.some (writtenRow (ScopeInput.list (rotateScope ow sk))
          (inheritedExpiration exp sk) true (Option.some sk.email)
          (Option.some sk.signature) now n) := by
  have hsig : sk.signature = key := dbFirst_sig db key sk hfind
  have hfreshn : dbFirst db n = Option.none := by
    have hp := List.find?_some hkeys
    simpa [Option.isNone_iff_eq_none] using hp
  have hne : n ≠ key := by
    intro hc
    rw [hc, hfind] at hfreshn
    cases hfreshn
  refine ⟨_, rotate_key_noFail_eq cfg db keys key exp ow now sk n hfind hg1 hg2 hkeys, ?_⟩
  rw [dbFirst_append,
    dbFirst_dbUpdate db key n { sk with active := false, rotated := true } hsig,
    if_neg (fun hc => hne hc.symm), hfreshn]
  exact dbFirst_cons_self _ [] n rfl

/-- Claim C8: write_key establishes the invariant that the stored
expiration offset is 0 exactly when the stored expiration instant is the
never-expires sentinel, for every expiration argument (given that the
clock plus a nonzero offset cannot land exactly on the sentinel instant);
and rotate_key preserves the invariant on the successor row when the
child inherits the expiration offset of the parent. -/
theorem expiration_invariant_established_and_preserved
    (db : List Signing) (keys : List String) (scope : ScopeInput)
    (expiration : Int) (active : Bool) (email pk : Option String) (now : Int)
    (db2 : List Signing) (key : String)
    (cfg : Config) (dbr : List Signing) (keysr : List String) (keyr : String)
    (sk : Signing) (nowr : Int) (n : String)
    (hw : write_key db keys scope expiration active email pk now
        = Option.some (db2, key))
    (hclock : expiration ≠ 0 → now + expiration * 3600 ≠ neverExpires)
    (hfindr : dbFirst dbr keyr = Option.some sk)
    (hg1 : (cfg.safe_mode && sk.rotated) = false)
    (hg2 : (cfg.safe_mode && !sk.active) = false)
    (hkeysr : keysr.find? (fun k => (dbFirst dbr k).isNone) = Option.some n)
    (hclockr : sk.expiration_int ≠ 0 → nowr + sk.expiration_int * 3600 ≠ neverExpires) :
    (∃ rec, db2 = db ++ [rec] ∧ rec.signature = key
      ∧ rec.expiration_int = expiration ∧ expirationInvariant rec)
    ∧ (∃ db3 rec, rotate_key cfg dbr keysr keyr Option.none ScopeInput.null nowr
          RotateFail.noFail = (db3, Except.ok n)
        ∧ dbFirst db3 n = Option.some rec
        ∧ rec.expiration_int = sk.expiration_int ∧ expirationInvariant rec) := by
  have inv : ∀ e now2 : Int, (e ≠ 0 → now2 + e * 3600 ≠ neverExpires) →
      ((e = 0) ↔ ((if e ≠ 0 then now2 + e * 3600 else neverExpires) = neverExpires)) := by
    intro e now2 hcl
    constructor
    · intro h0
      rw [if_neg (by simpa using h0)]
    · intro hsent
      by_contra h0
      rw [if_pos h0] at hsent
      exact hcl h0 hsent
  constructor
  · obtain ⟨_, hdb⟩ := write_key_eq db keys scope expiration active email pk now db2 key hw
    exact ⟨_, hdb, rfl, rfl, inv expiration now hclock⟩
  · obtain ⟨db3, hrot, hlook⟩ := rotate_key_successor_lookup cfg dbr keysr keyr
      Option.none ScopeInput.null nowr sk n hfindr hg1 hg2 hkeysr
    exact ⟨db3, _, hrot, hlook, rfl, inv sk.expiration_int nowr hclockr⟩

/-- Witness for the C8 theorem: issuing a key with a five-hour expiry at
time 0 stores offset 5 with instant 18000, satisfying the invariant, and
rotating the concrete never-expiring key yields a successor that inherits
offset 0 with the sentinel instant. -/
theorem expiration_invariant_established_and_preserved_witness :
    (∃ rec, [c8row] = ([] : List Signing) ++ [rec] ∧ rec.signature = "k1"
      ∧ rec.expiration_int = 5 ∧ expirationInvariant rec)
    ∧ (∃ db3 rec, rotate_key cfgSafe c1db ["n8"] "k1" Option.none ScopeInput.null 7
          RotateFail.noFail = (db3, Except.ok "n8")
        ∧ dbFirst db3 "n8" = Option.some rec
        ∧ rec.expiration_int = c1row.expiration_int ∧ expirationInvariant rec) :=
  expiration_invariant_established_and_preserved [] ["k1"] (ScopeInput.str "Read")
    5 true Option.none Option.none 0 [c8row] "k1"
    cfgSafe c1db ["n8"] "k1" c1row 7 "n8"
    (by decide) (by decide) (by decide) (by decide) (by decide) (by decide)
    (by decide)

theorem verify_key_no_reset_incr (cfg : Config) (db : List Signing)
    (sig : String) (sc : ReqScope) (now : Int) (k : Signing)
    (hrl : cfg.rate_limiting = true) (hfind : dbFirst db sig = Option.some k)
    (hnr : ¬ now - k.last_request_time ≥ cfg.rate_limiting_period)
    (hlt : k.request_count < cfg.rate_limiting_max_requests) :
    verify_key cfg db sig sc now
      = check_key
        (dbUpdate db sig
          { k with request_count := k.request_count + 1, last_request_time := now })
        sig sc now := by
  simp [verify_key, hrl, hfind, hnr, not_le.mpr hlt]

theorem verify_key_throttled (cfg : Config) (db : List Signing)
    (sig : String) (sc : ReqScope) (now : Int) (k : Signing)
    (hrl : cfg.rate_limiting = true) (hfind : dbFirst db sig = Option.some k)
    (hnr : ¬ now - k.last_request_time ≥ cfg.rate_limiting_period)
    (hge : k.request_count ≥ cfg.rate_limiting_max_requests) :
    verify_key cfg db sig sc now
      = (db, Except.error
          (SigningError.rateLimitExceeded "Too many requests. Please try again later.")) := by
  simp [verify_key, hrl, hfind, hnr, hge]

theorem verify_key_reset_incr (cfg : Config) (db : List Signing)
    (sig : String) (sc : ReqScope) (now : Int) (k : Signing)
    (hrl : cfg.rate_limiting = true) (hfind : dbFirst db sig = Option.some k)
    (hr : now - k.last_request_time ≥ cfg.rate_limiting_period)
    (hpos : 0 < cfg.rate_limiting_max_requests) :
    verify_key cfg db sig sc now
      = check_key
        (dbUpdate db sig
          { k with request_count := 1, last_request_time := now })
        sig sc now := by
  simp [verify_key, hrl, hfind, hr, not_le.mpr hpos]

/-- Claim C2: with rate limiting enabled, a maximum of 2 requests per
window and an otherwise-valid key, three verify_key calls within the
window succeed, succeed, and then fail with RateLimitExceeded, the third
call leaving the database untouched because the throttled branch raises
before the wrapped check_key runs; once the clock has advanced a full
window past the last counted request, the next call resets the counter
(persisting request_count = 1 for that call) and succeeds. -/
theorem verify_key_rate_limits_and_resets
    (cfg : Config) (db : List Signing) (sig s : String) (k0 : Signing)
    (t1 t2 t3 t4 : Int)
    (hrl : cfg.rate_limiting = true) (hmax : cfg.rate_limiting_max_requests = 2)
    (hfind : dbFirst db sig = Option.some k0)
    (hcount : k0.request_count = 0)
    (hact : k0.active = true) (hexp : k0.expiration = neverExpires)
    (hscope : s ∈ k0.scope)
    (h12 : t1 ≤ t2) (h23 : t2 ≤ t3) (h34 : t3 ≤ t4)
    (h21 : t2 - t1 < cfg.rate_limiting_period)
    (h32 : t3 - t2 < cfg.rate_limiting_period)
    (h42 : t4 - t2 ≥ cfg.rate_limiting_period)
    (hcap : t4 ≤ neverExpires) :
    ∃ db1 db2 db4 : List Signing,
      verify_key cfg db sig (ReqScope.str s) t1 = (db1, Except.ok true)
      ∧ verify_key cfg db1 sig (ReqScope.str s) t2 = (db2, Except.ok true)
      ∧ verify_key cfg db2 sig (ReqScope.str s) t3
        = (db2, Except.error
            (SigningError.rateLimitExceeded "Too many requests. Please try again later."))
      ∧ verify_key cfg db2 sig (ReqScope.str s) t4 = (db4, Except.ok true)
      ∧ (∃ r, dbFirst db4 sig = Option.some r ∧ r.request_count = 1
          ∧ r.last_request_time = t4) := by
  have hsig : k0.signature = sig := dbFirst_sig db sig k0 hfind
  set K1 : Signing := { k0 with request_count := 1, last_request_time := t1 } with hK1
  set K2 : Signing := { k0 with request_count := 2, last_request_time := t2 } with hK2
  set K4 : Signing := { k0 with request_count := 1, last_request_time := t4 } with hK4
  set db1 : List Signing := dbUpdate db sig K1 with hdb1
  set db2 : List Signing := dbUpdate db1 sig K2 with hdb2
  set db4 : List Signing := dbUpdate db2 sig K4 with hdb4
  have hfind1 : dbFirst db1 sig = Option.some K1 := by
    rw [hdb1, dbFirst_dbUpdate db sig sig K1 hsig, if_pos rfl, hfind]
    rfl
  have hfind2 : dbFirst db2 sig = Option.some K2 := by
    rw [hdb2, dbFirst_dbUpdate db1 sig sig K2 hsig, if_pos rfl, hfind1]
    rfl
  have hfind4 : dbFirst db4 sig = Option.some K4 := by
    rw [hdb4, dbFirst_dbUpdate db2 sig sig K4 hsig, if_pos rfl, hfind2]
    rfl
  have ht1 : t1 ≤ neverExpires := le_trans h12 (le_trans h23 (le_trans h34 hcap))
  have ht2 : t2 ≤ neverExpires := le_trans h23 (le_trans h34 hcap)
  have hok1 : check_key db1 sig (ReqScope.str s) t1 = (db1, Except.ok true) := by
    apply check_key_ok db1 sig K1 (ReqScope.str s) t1 hfind1 hact
    · show ¬ k0.expiration < t1
      rw [hexp]
      exact not_lt.mpr ht1
    · right
      exact ⟨s, by simp [ReqScope.toList], hscope⟩
  have hok2 : check_key db2 sig (ReqScope.str s) t2 = (db2, Except.ok true) := by
    apply check_key_ok db2 sig K2 (ReqScope.str s) t2 hfind2 hact
    · show ¬ k0.expiration < t2
      rw [hexp]
      exact not_lt.mpr ht2
    · right
      exact ⟨s, by simp [ReqScope.toList], hscope⟩
  have hok4 : check_key db4 sig (ReqScope.str s) t4 = (db4, Except.ok true) := by
    apply check_key_ok db4 sig K4 (ReqScope.str s) t4 hfind4 hact
    · show ¬ k0.expiration < t4
      rw [hexp]
      exact not_lt.mpr hcap
    · right
      exact ⟨s, by simp [ReqScope.toList], hscope⟩
  refine ⟨db1, db2, db4, ?_, ?_, ?_, ?_, K4, hfind4, rfl, rfl⟩
  · by_cases hr1 : t1 - k0.last_request_time ≥ cfg.rate_limiting_period
    · rw [verify_key_reset_incr cfg db sig (ReqScope.str s) t1 k0 hrl hfind hr1
        (by rw [hmax]; norm_num)]
      exact hok1
    · rw [verify_key_no_reset_incr cfg db sig (ReqScope.str s) t1 k0 hrl hfind hr1
        (by rw [hcount, hmax]; norm_num)]
      have : ({ k0 with request_count := k0.request_count + 1, last_request_time := t1 } : Signing) = K1 := by
        rw [hK1, hcount]
        norm_num
      rw [this]
      exact hok1
  · have hnr2 : ¬ t2 - K1.last_request_time ≥ cfg.rate_limiting_period := by
      show ¬ t2 - t1 ≥ cfg.rate_limiting_period
      exact not_le.mpr h21
    rw [verify_key_no_reset_incr cfg db1 sig (ReqScope.str s) t2 K1 hrl hfind1 hnr2
      (by show (1:Int) < cfg.rate_limiting_max_requests; rw [hmax]; norm_num)]
    have : ({ K1 with request_count := K1.request_count + 1, last_request_time := t2 } : Signing) = K2 := by
      rw [hK2, hK1]
      norm_num
    rw [this]
    exact hok2
  · have hnr3 : ¬ t3 - K2.last_request_time ≥ cfg.rate_limiting_period := by
      show ¬ t3 - t2 ≥ cfg.rate_limiting_period
      exact not_le.mpr h32
    exact verify_key_throttled cfg db2 sig (ReqScope.str s) t3 K2 hrl hfind2 hnr3
      (by show cfg.rate_limiting_max_requests ≤ (2:Int); rw [hmax])
  · have hr4 : t4 - K2.last_request_time ≥ cfg.rate_limiting_period := by
      show t4 - t2 ≥ cfg.rate_limiting_period
      exact h42
    rw [verify_key_reset_incr cfg db2 sig (ReqScope.str s) t4 K2 hrl hfind2 hr4
      (by rw [hmax]; norm_num)]
    have : ({ K2 with request_count := 1, last_request_time := t4 } : Signing) = K4 := by
      rw [hK4, hK2]
    rw [this]
    exact hok4

/-- Witness for the C2 theorem: on the concrete one-key store with a
10-second window and a maximum of 2 requests, calls at times 1, 2 and 3
succeed, succeed and are throttled, and a call at time 12 resets the
counter and succeeds. -/
theorem verify_key_rate_limits_and_resets_witness :
    ∃ db1 db2 db4 : List Signing,
      verify_key cfgRate c1db "k1" (ReqScope.str "read") 1 = (db1, Except.ok true)
      ∧ verify_key cfgRate db1 "k1" (ReqScope.str "read") 2 = (db2, Except.ok true)
      ∧ verify_key cfgRate db2 "k1" (ReqScope.str "read") 3
        = (db2, Except.error
            (SigningError.rateLimitExceeded "Too many requests. Please try again later."))
      ∧ verify_key cfgRate db2 "k1" (ReqScope.str "read") 12 = (db4, Except.ok true)
      ∧ (∃ r, dbFirst db4 "k1" = Option.some r ∧ r.request_count = 1
          ∧ r.last_request_time = 12) :=
  verify_key_rate_limits_and_resets cfgRate c1db "k1" "read" c1row 1 2 3 12
    (by decide) (by decide) (by decide) (by decide) (by decide) (by decide)
    (by decide) (by decide) (by decide) (by decide) (by decide) (by decide)
    (by decide) (by decide)

end SqlalchemySigning
